import Mathlib

/-!
Shallow embedding of the `ufanet_doorphone` Home Assistant integration
(`custom_components/ufanet_doorphone/__init__.py` and `config_flow.py`).

The HTTP world is an oracle: `Env.server` maps the index of the HTTP call
and the request being issued to the response the vendor portal returns.
Every HTTP call the client makes is recorded in `Env.log`, so statements
about "how many logins were issued" are statements about that log.

The Python client stores `self.cookie = session.cookie_jar` after a
successful login.  An `aiohttp.CookieJar` defines `__len__`, so in the
guard `if not self.cookie:` the jar is falsy exactly when it is `None` or
empty; the jar is modelled as `Option (List String)` (the cookies the
login response set) and the guard as `cookieTruthy`.

The recursive 401-retry in `get_doorphones` / `open_doorphone`
(`await self.authenticate(); return await self.get_doorphones()`) is
embedded with explicit fuel; `Outcome.diverge` marks that the recursion
exhausted any given fuel, i.e. the Python code recurses without bound.
-/

/-- Requests the client can issue against the vendor portal. -/
inductive Req where
  | login (contract password : String)
  | getList
  | openDoor (id : Nat)
deriving Repr

/-- Minimal JSON values, enough for the bodies the client inspects. -/
inductive Json where
  | null
  | bool (b : Bool)
  | num (n : Int)
  | str (s : String)
  | arr (xs : List Json)
  | obj (fields : List (String × Json))

/-- Python truthiness of a decoded JSON value (used by `if success:`). -/
def Json.truthy : Json → Bool
  | Json.null => false
  | Json.bool b => b
  | Json.num n => n != 0
  | Json.str s => !s.isEmpty
  | Json.arr xs => !xs.isEmpty
  | Json.obj fields => !fields.isEmpty

/-- Python `dict.get(key, default)` on a decoded JSON object. -/
def Json.getD (j : Json) (key : String) (dflt : Json) : Json :=
  match j with
  | Json.obj fields =>
    match fields.find? (fun p => p.1 == key) with
    | some p => p.2
    | none => dflt
  | _ => dflt

/-- One HTTP response: status code, decoded JSON body, and the cookies the
response sets (relevant for the login endpoint). -/
structure Resp where
  status : Nat
  json : Json
  setCookies : List String

/-- The world the client runs in: the server oracle, the number of HTTP
calls made so far, and the list of requests issued so far. -/
structure Env where
  server : Nat → Req → Resp
  calls : Nat
  log : List Req

/-- Issue one HTTP request: consult the oracle, bump the call counter and
record the request. -/
def Env.request (e : Env) (r : Req) : Resp × Env :=
  (e.server e.calls r, { e with calls := e.calls + 1, log := e.log ++ [r] })

/-- A raised Python exception: its class name and its message.  All three
failure paths of `UfanetAPI` raise bare `Exception(...)`. -/
structure PyError where
  className : String
  message : String

/-- Result of running one client operation: normal return, raised
exception, or fuel exhausted (the embedded recursion did not terminate). -/
inductive Outcome (α : Type) where
  | ok (a : α)
  | err (e : PyError)
  | diverge

/-- The exception `authenticate` raises on a non-200 login response. -/
def authFailedError : PyError :=
  { className := "Exception", message := "Authentication failed" }

/-- The exception `get_doorphones` raises on a status other than 200/401. -/
def fetchFailedError : PyError :=
  { className := "Exception", message := "Failed to fetch doorphones" }

/-- The exception `open_doorphone` raises on a status other than 200/401. -/
def openFailedError : PyError :=
  { className := "Exception", message := "Failed to open doorphone" }

/-- Mutable state of a `UfanetAPI` instance: the stored credentials and the
stored cookie jar (`None` at construction).  The `self.session` field is
not modelled: it is overwritten on every operation and only read inside
the same `async with` block that writes it. -/
structure APIState where
  username : String
  password : String
  cookie : Option (List String)

/-- Python truthiness of the stored cookie jar: falsy when absent
(`None`) or when the jar holds no cookies (`CookieJar.__len__`). -/
def cookieTruthy : Option (List String) → Bool
  | none => false
  | some jar => !jar.isEmpty

/-- Embedding of `UfanetAPI.authenticate`: POST the login form; on 200
store the session cookie jar, otherwise log an error and raise
`Exception("Authentication failed")`. -/
def UfanetAPI.authenticate (st : APIState) (e : Env) :
    Outcome Unit × APIState × Env :=
  match e.request (Req.login st.username st.password) with
  | (resp, e1) =>
    if resp.status = 200 then
      (Outcome.ok (), { st with cookie := some resp.setCookies }, e1)
    else
      (Outcome.err authFailedError, st, e1)

/-- Embedding of `UfanetAPI.get_doorphones`: authenticate first when the
stored cookie jar is falsy, then GET the list endpoint; on 200 return the
decoded body, on 401 re-authenticate and recurse, otherwise raise
`Exception("Failed to fetch doorphones")`.  The Python recursion is
unbounded; `fuel` bounds the embedding. -/
def UfanetAPI.get_doorphones : Nat → APIState → Env → Outcome Json × APIState × Env
  | 0, st, e => (Outcome.diverge, st, e)
  | fuel + 1, st, e =>
    match (if cookieTruthy st.cookie then (Outcome.ok (), st, e)
           else UfanetAPI.authenticate st e) with
    | (Outcome.err pe, st1, e1) => (Outcome.err pe, st1, e1)
    | (Outcome.diverge, st1, e1) => (Outcome.diverge, st1, e1)
    | (Outcome.ok _, st1, e1) =>
      match e1.request Req.getList with
      | (resp, e2) =>
        if resp.status = 200 then
          (Outcome.ok resp.json, st1, e2)
        else if resp.status = 401 then
          match UfanetAPI.authenticate st1 e2 with
          | (Outcome.ok _, st2, e3) => UfanetAPI.get_doorphones fuel st2 e3
          | (Outcome.err pe, st2, e3) => (Outcome.err pe, st2, e3)
          | (Outcome.diverge, st2, e3) => (Outcome.diverge, st2, e3)
        else
          (Outcome.err fetchFailedError, st1, e2)

/-- Embedding of `UfanetAPI.open_doorphone`: authenticate first when the
stored cookie jar is falsy, then GET the open endpoint for the given id;
on 200 return `result.get("result", False)` from the decoded body (a
non-dict body would make `.get` raise `AttributeError`), on 401
re-authenticate and recurse, otherwise raise
`Exception("Failed to open doorphone")`. -/
def UfanetAPI.open_doorphone (id : Nat) :
    Nat → APIState → Env → Outcome Json × APIState × Env
  | 0, st, e => (Outcome.diverge, st, e)
  | fuel + 1, st, e =>
    match (if cookieTruthy st.cookie then (Outcome.ok (), st, e)
           else UfanetAPI.authenticate st e) with
    | (Outcome.err pe, st1, e1) => (Outcome.err pe, st1, e1)
    | (Outcome.diverge, st1, e1) => (Outcome.diverge, st1, e1)
    | (Outcome.ok _, st1, e1) =>
      match e1.request (Req.openDoor id) with
      | (resp, e2) =>
        if resp.status = 200 then
          match resp.json with
          | Json.obj fields =>
            (Outcome.ok ((Json.obj fields).getD "result" (Json.bool false)), st1, e2)
          | _ =>
            (Outcome.err { className := "AttributeError",
                           message := "no attribute get" }, st1, e2)
        else if resp.status = 401 then
          match UfanetAPI.authenticate st1 e2 with
          | (Outcome.ok _, st2, e3) => UfanetAPI.open_doorphone id fuel st2 e3
          | (Outcome.err pe, st2, e3) => (Outcome.err pe, st2, e3)
          | (Outcome.diverge, st2, e3) => (Outcome.diverge, st2, e3)
        else
          (Outcome.err openFailedError, st1, e2)

/-- Decimal digit string of a natural number, as Python `str(n)` renders
the doorphone id inside the f-string of `UfanetLock.unique_id`. -/
def decDigits (n : Nat) : List Char :=
  if h : n < 10 then [Nat.digitChar n]
  else decDigits (n / 10) ++ [Nat.digitChar (n % 10)]
termination_by n
decreasing_by
  exact Nat.div_lt_self (Nat.lt_of_lt_of_le (by decide) (Nat.le_of_not_lt h)) (by decide)

/-- Decimal value of a digit string; left inverse of `decDigits`. -/
def decVal (l : List Char) : Nat :=
  l.foldl (fun a c => 10 * a + (c.toNat - 48)) 0

theorem digitChar_toNat_sub (d : Nat) (h : d < 10) :
    (Nat.digitChar d).toNat - 48 = d := by
  interval_cases d <;> rfl

theorem decVal_decDigits (n : Nat) : decVal (decDigits n) = n := by
  induction n using Nat.strong_induction_on with
  | _ n ih =>
    rw [decDigits]
    by_cases h : n < 10
    · simp only [h, dite_true, decVal, List.foldl_cons, List.foldl_nil, Nat.mul_zero,
        Nat.zero_add]
      exact digitChar_toNat_sub n h
    · have hpos : 0 < n := Nat.lt_of_lt_of_le (by decide) (Nat.le_of_not_lt h)
      have hlt : n / 10 < n := Nat.div_lt_self hpos (by decide)
      simp only [h, dite_false, decVal, List.foldl_append, List.foldl_cons, List.foldl_nil]
      have hrec : List.foldl (fun a c => 10 * a + (c.toNat - 48)) 0 (decDigits (n / 10))
          = n / 10 := ih (n / 10) hlt
      rw [hrec, digitChar_toNat_sub (n % 10) (Nat.mod_lt n (by decide))]
      exact Nat.div_add_mod n 10

theorem decDigits_injective : Function.Injective decDigits := by
  intro a b hab
  have := congrArg decVal hab
  rwa [decVal_decDigits, decVal_decDigits] at this

/-- State of a `UfanetLock` instance: the shared client is threaded
separately as `APIState`; the entity itself stores only the display name
(`doorphone.get("string_view", "Unknown Doorphone")`) and the doorphone
id (`doorphone["id"]`, an integer in the vendor API). -/
structure UfanetLock where
  lockName : String
  lockId : Nat

/-- Embedding of the `unique_id` property: the Python f-string
`ufanet_doorphone_` followed by `str(self._id)`. -/
def UfanetLock.unique_id (lk : UfanetLock) : String :=
  String.mk ("ufanet_doorphone_".data ++ decDigits lk.lockId)

/-- Embedding of the `is_locked` property: always `False`. -/
def UfanetLock.is_locked (_ : UfanetLock) : Bool :=
  false

/-- One `_LOGGER` record emitted by `async_unlock`: an info-level success
line or an error-level failure line. -/
inductive LogEntry where
  | info (msg : String)
  | error (msg : String)

/-- Result of running `async_unlock`: its outcome (`err` means the call
raised), the entity after the call (no field of `self` is assigned), the
client state, the world, and the `_LOGGER` records emitted. -/
structure UnlockResult where
  outcome : Outcome Unit
  lock : UfanetLock
  state : APIState
  env : Env
  logs : List LogEntry

/-- Embedding of `UfanetLock.async_unlock`: awaits
`self._api.open_doorphone(self._id)` with no surrounding try/except, so a
raised error propagates; a truthy result logs success at info level and a
falsy result logs failure at error level. -/
def UfanetLock.async_unlock (lk : UfanetLock) (fuel : Nat) (st : APIState) (e : Env) :
    UnlockResult :=
  match UfanetAPI.open_doorphone lk.lockId fuel st e with
  | (Outcome.ok j, st1, e1) =>
    if j.truthy then
      { outcome := Outcome.ok (), lock := lk, state := st1, env := e1,
        logs := [LogEntry.info ("Doorphone " ++ lk.lockName ++ " opened successfully.")] }
    else
      { outcome := Outcome.ok (), lock := lk, state := st1, env := e1,
        logs := [LogEntry.error ("Failed to open doorphone " ++ lk.lockName ++ ".")] }
  | (Outcome.err pe, st1, e1) =>
    { outcome := Outcome.err pe, lock := lk, state := st1, env := e1, logs := [] }
  | (Outcome.diverge, st1, e1) =>
    { outcome := Outcome.diverge, lock := lk, state := st1, env := e1, logs := [] }

/-- Run a sequence of `async_unlock` calls on one entity, threading the
shared client state and the world through each call. -/
def UfanetLock.runUnlocks (fuel : Nat) :
    Nat → UfanetLock → APIState → Env → UfanetLock × APIState × Env
  | 0, lk, st, e => (lk, st, e)
  | n + 1, lk, st, e =>
    match UfanetLock.async_unlock lk fuel st e with
    | r => UfanetLock.runUnlocks fuel n r.lock r.state r.env

/-- Outcome of submitting the credential form once. -/
inductive FlowResult where
  | createEntry (title username password : String)
  | showForm (errorBase : Option String)

/-- Embedding of `UfanetConfigFlow.async_step_user` for a submitted form
(`user_input` is not `None`) with both fields present as strings.  The
guard `if not username or not password` is Python falsiness, i.e. the
empty string.  In the `else` branch the code evaluates
`api.authenticate()` without `await`: `authenticate` is a coroutine
function (modelled from the spec for the imported
`integration_code.UfanetAPI`, which is not under `src/`; the sibling
client in `__init__.py` declares it `async def` as well), so the call
only builds a coroutine object, performs no I/O and raises nothing, and
the flow reaches `async_create_entry` whatever the portal would answer.
`authWouldSucceed` is that answer; the code never consults it. -/
def UfanetConfigFlow.async_step_user (username password : String)
    (authWouldSucceed : Bool) : FlowResult :=
  if username.isEmpty || password.isEmpty then
    FlowResult.showForm (some "missing_fields")
  else
    FlowResult.createEntry "Ufanet Doorphone" username password

/-! ## Concrete fixtures used by counterexamples and witnesses -/

/-- A server answering every request with the same response. -/
def constServer (r : Resp) : Nat → Req → Resp :=
  fun _ _ => r

/-- A fresh world: no calls made yet, empty request log. -/
def mkEnv (s : Nat → Req → Resp) : Env :=
  { server := s, calls := 0, log := [] }

/-- A client that has not authenticated yet. -/
def stFresh : APIState :=
  { username := "u1", password := "p1", cookie := none }

/-- A client holding a stored, non-empty session cookie jar. -/
def stWithCookie : APIState :=
  { username := "u1", password := "p1", cookie := some ["sessionid"] }

/-- A server answering 500 to everything. -/
def server500 : Nat → Req → Resp :=
  constServer { status := 500, json := Json.null, setCookies := [] }

/-- A server answering 403 to everything. -/
def server403 : Nat → Req → Resp :=
  constServer { status := 403, json := Json.null, setCookies := [] }

/-- A server whose login always succeeds (setting a session cookie) while
every authenticated GET answers 401: a session that is permanently
rejected even right after a fresh successful login. -/
def sessionExpiredServer : Nat → Req → Resp :=
  fun _ r =>
    match r with
    | Req.login _ _ => { status := 200, json := Json.null, setCookies := ["sessionid"] }
    | _ => { status := 401, json := Json.null, setCookies := [] }

/-- A server whose login succeeds with 200 but sets no cookie, while the
list endpoint answers 200 with an empty array. -/
def emptyCookieServer : Nat → Req → Resp :=
  fun _ r =>
    match r with
    | Req.login _ _ => { status := 200, json := Json.null, setCookies := [] }
    | _ => { status := 200, json := Json.arr [], setCookies := [] }

/-- A healthy server: login answers 200 and sets a session cookie, every
authenticated GET answers 200 with an empty JSON array body. -/
def sessionCookieServer : Nat → Req → Resp :=
  fun _ r =>
    match r with
    | Req.login _ _ => { status := 200, json := Json.null, setCookies := ["sessionid"] }
    | _ => { status := 200, json := Json.arr [], setCookies := [] }

/-- A doorphone entity built from descriptor id 42, named Front Gate. -/
def frontGate : UfanetLock :=
  { lockName := "Front Gate", lockId := 42 }

/-! ## Claim theorems -/

/-- Claim C2 (code bug): submitting the credential form with a non-empty
username and password creates the config entry even though the portal
would reject the credentials (`authWouldSucceed = false`): the call
`api.authenticate()` is missing `await`, so no validation authenticate
call is performed (or completed) before persisting, contradicting both
the spec and the code's own comment `Test authentication with the API`. -/
theorem claim_C2 :
    UfanetConfigFlow.async_step_user "u1" "wrong-secret" false
      = FlowResult.createEntry "Ufanet Doorphone" "u1" "wrong-secret" := by
  rfl

/-- Claim C7: the entity's `unique_id` is a pure deterministic function of
the doorphone id (two instantiations with the same id, whatever their
display names, report the same key) and is injective (two entities with
the same key necessarily wrap the same doorphone id). -/
theorem claim_C7 :
    (∀ l1 l2 : UfanetLock, l1.lockId = l2.lockId → l1.unique_id = l2.unique_id) ∧
    (∀ l1 l2 : UfanetLock, l1.unique_id = l2.unique_id → l1.lockId = l2.lockId) := by
  constructor
  · intro l1 l2 h
    unfold UfanetLock.unique_id
    rw [h]
  · intro l1 l2 h
    unfold UfanetLock.unique_id at h
    have hdata : "ufanet_doorphone_".data ++ decDigits l1.lockId
        = "ufanet_doorphone_".data ++ decDigits l2.lockId := by
      injection h
    exact decDigits_injective (List.append_cancel_left hdata)

/-- Claim C7 witness: two entities wrapping doorphone id 42 under
different display names share one identity key, and from that shared key
the id equality is recovered. -/
theorem claim_C7_witness :
    (UfanetLock.mk "Front Gate" 42).unique_id = (UfanetLock.mk "Back Gate" 42).unique_id ∧
    (UfanetLock.mk "Front Gate" 42).lockId = (UfanetLock.mk "Back Gate" 42).lockId :=
  ⟨claim_C7.1 (UfanetLock.mk "Front Gate" 42) (UfanetLock.mk "Back Gate" 42) rfl,
   claim_C7.2 (UfanetLock.mk "Front Gate" 42) (UfanetLock.mk "Back Gate" 42) rfl⟩

/-- Helper: `async_unlock` never assigns any field of `self`: the entity
after the call is the entity before it. -/
theorem async_unlock_lock_eq (lk : UfanetLock) (fuel : Nat) (st : APIState) (e : Env) :
    (UfanetLock.async_unlock lk fuel st e).lock = lk := by
  unfold UfanetLock.async_unlock
  rcases UfanetAPI.open_doorphone lk.lockId fuel st e with ⟨o, st1, e1⟩
  cases o with
  | ok j =>
    by_cases hj : j.truthy <;> simp [hj]
  | err pe => rfl
  | diverge => rfl

/-- Claim C8: the observable locked state is the constant `False`: after
any number of `async_unlock` calls with any outcomes (dictated by an
arbitrary server oracle), the entity is unchanged and `is_locked` still
reports `false`. -/
theorem claim_C8 :
    ∀ (n fuel : Nat) (lk : UfanetLock) (st : APIState) (e : Env),
      (UfanetLock.runUnlocks fuel n lk st e).1 = lk ∧
      (UfanetLock.runUnlocks fuel n lk st e).1.is_locked = false := by
  intro n
  induction n with
  | zero => intro fuel lk st e; exact ⟨rfl, rfl⟩
  | succ n ih =>
    intro fuel lk st e
    simp only [UfanetLock.runUnlocks]
    rw [async_unlock_lock_eq lk fuel st e]
    exact ih fuel lk _ _

/-- Claim C6: when the stored cookie jar is truthy (no login is
interposed) and the open GET answers 200, the returned value is
`result.get("result", False)` of the body: body `{"result": b}` yields
the boolean `b`, and the empty body `{}` yields `false`. -/
theorem claim_C6 (st : APIState) (e : Env) (id : Nat) (b : Bool)
    (hc : cookieTruthy st.cookie = true)
    (h200 : (e.server e.calls (Req.openDoor id)).status = 200) :
    ((e.server e.calls (Req.openDoor id)).json = Json.obj [("result", Json.bool b)] →
      (UfanetAPI.open_doorphone id 1 st e).1 = Outcome.ok (Json.bool b)) ∧
    ((e.server e.calls (Req.openDoor id)).json = Json.obj [] →
      (UfanetAPI.open_doorphone id 1 st e).1 = Outcome.ok (Json.bool false)) := by
  constructor <;> intro hjson <;>
    simp [UfanetAPI.open_doorphone, Env.request, hc, h200, hjson, Json.getD]

/-- Claim C6 witness: against a server whose open endpoint answers 200
with body containing result true, `open_doorphone` returns true. -/
theorem claim_C6_witness :
    (UfanetAPI.open_doorphone 42 1 stWithCookie
        (mkEnv (constServer
          { status := 200, json := Json.obj [("result", Json.bool true)],
            setCookies := [] }))).1
      = Outcome.ok (Json.bool true) :=
  (claim_C6 stWithCookie
    (mkEnv (constServer
      { status := 200, json := Json.obj [("result", Json.bool true)], setCookies := [] }))
    42 true rfl rfl).1 rfl

/-- Claim C1 (code bug): against a server whose login always succeeds but
whose authenticated GETs always answer 401 (a permanently rejected
session), both `get_doorphones` and `open_doorphone` re-authenticate and
re-issue the call again and again: the recursion exhausts every fuel
bound, i.e. the Python code loops without bound instead of failing after
a single retry. -/
theorem claim_C1 :
    ∀ (fuel : Nat) (st : APIState) (calls : Nat) (log : List Req),
      (UfanetAPI.get_doorphones fuel st
        { server := sessionExpiredServer, calls := calls, log := log }).1
        = Outcome.diverge ∧
      (UfanetAPI.open_doorphone 42 fuel st
        { server := sessionExpiredServer, calls := calls, log := log }).1
        = Outcome.diverge := by
  intro fuel
  induction fuel with
  | zero => intro st calls log; exact ⟨rfl, rfl⟩
  | succ fuel ih =>
    intro st calls log
    constructor
    · by_cases h : cookieTruthy st.cookie <;>
        simp [UfanetAPI.get_doorphones, UfanetAPI.authenticate, Env.request,
          sessionExpiredServer, h] <;>
        exact (ih _ _ _).1
    · by_cases h : cookieTruthy st.cookie <;>
        simp [UfanetAPI.open_doorphone, UfanetAPI.authenticate, Env.request,
          sessionExpiredServer, h] <;>
        exact (ih _ _ _).2

/-- Claim C3 counterexample: with a stored session and a server answering
500 to the open GET, `open_doorphone` raises and `async_unlock` lets the
exception propagate (outcome is `err`, no failure log entry is written):
the claim that every error is caught at the Controller boundary and
converted to a logged failure is false of the code, which has no
try/except around `await self._api.open_doorphone(...)`. -/
theorem claim_C3_cex :
    (UfanetLock.async_unlock frontGate 1 stWithCookie (mkEnv server500)).outcome
      = Outcome.err openFailedError ∧
    (UfanetLock.async_unlock frontGate 1 stWithCookie (mkEnv server500)).logs = [] := by
  exact ⟨rfl, rfl⟩

/-- Claim C3 as amended: `async_unlock` distinguishes outcomes through the
log (a truthy result writes the info-level success line, a falsy result
writes the error-level failure line, and the two lines differ), but an
error raised by `open_doorphone` is not caught: it propagates out of
`async_unlock` with no log entry written. -/
theorem claim_C3 (lk : UfanetLock) (st : APIState) (e : Env) (b : Bool) (s : Nat)
    (hc : cookieTruthy st.cookie = true) :
    ((e.server e.calls (Req.openDoor lk.lockId)).status = 200 →
      (e.server e.calls (Req.openDoor lk.lockId)).json = Json.obj [("result", Json.bool b)] →
      (UfanetLock.async_unlock lk 1 st e).outcome = Outcome.ok () ∧
      (UfanetLock.async_unlock lk 1 st e).logs =
        (if b then [LogEntry.info ("Doorphone " ++ lk.lockName ++ " opened successfully.")]
         else [LogEntry.error ("Failed to open doorphone " ++ lk.lockName ++ ".")])) ∧
    ((e.server e.calls (Req.openDoor lk.lockId)).status = s → s ≠ 200 → s ≠ 401 →
      (UfanetLock.async_unlock lk 1 st e).outcome = Outcome.err openFailedError ∧
      (UfanetLock.async_unlock lk 1 st e).logs = []) ∧
    (∀ msg1 msg2,
      LogEntry.info ("Doorphone " ++ msg1 ++ " opened successfully.")
        ≠ LogEntry.error msg2) := by
  refine ⟨?_, ?_, ?_⟩
  · intro h200 hjson
    cases b <;>
      simp [UfanetLock.async_unlock, UfanetAPI.open_doorphone, Env.request,
        hc, h200, hjson, Json.getD, Json.truthy]
  · intro hs hs200 hs401
    have h1 : (e.server e.calls (Req.openDoor lk.lockId)).status ≠ 200 := by
      rw [hs]; exact hs200
    have h2 : (e.server e.calls (Req.openDoor lk.lockId)).status ≠ 401 := by
      rw [hs]; exact hs401
    simp [UfanetLock.async_unlock, UfanetAPI.open_doorphone, Env.request, hc, h1, h2]
  · intro msg1 msg2 h
    exact LogEntry.noConfusion h

/-- Claim C3 witness: a 200 open response with result true makes
`async_unlock` finish normally with exactly the success log line, and a
500 open response makes it propagate the raised error with no log. -/
theorem claim_C3_witness :
    ((UfanetLock.async_unlock frontGate 1 stWithCookie
        (mkEnv (constServer
          { status := 200, json := Json.obj [("result", Json.bool true)],
            setCookies := [] }))).outcome = Outcome.ok () ∧
      (UfanetLock.async_unlock frontGate 1 stWithCookie
        (mkEnv (constServer
          { status := 200, json := Json.obj [("result", Json.bool true)],
            setCookies := [] }))).logs
        = [LogEntry.info ("Doorphone " ++ "Front Gate" ++ " opened successfully.")]) ∧
    ((UfanetLock.async_unlock frontGate 1 stWithCookie
        (mkEnv server403)).outcome = Outcome.err openFailedError ∧
      (UfanetLock.async_unlock frontGate 1 stWithCookie (mkEnv server403)).logs = []) := by
  constructor
  · have h := (claim_C3 frontGate stWithCookie
      (mkEnv (constServer
        { status := 200, json := Json.obj [("result", Json.bool true)],
          setCookies := [] })) true 200 rfl).1 rfl rfl
    simpa using h
  · exact ((claim_C3 frontGate stWithCookie (mkEnv server403) true 403 rfl).2.1
      rfl (by decide) (by decide))

/-- Claim C4 counterexample: a login rejected with 500 and a login
rejected with 403 raise the identical exception value, whose class is the
generic `Exception`, not a distinct `AuthenticationError`; since the two
runs differ only in the status code yet raise equal errors, the raised
error cannot carry the status code. -/
theorem claim_C4_cex :
    (UfanetAPI.authenticate stFresh (mkEnv server500)).1
      = (UfanetAPI.authenticate stFresh (mkEnv server403)).1 ∧
    (UfanetAPI.authenticate stFresh (mkEnv server500)).1 = Outcome.err authFailedError ∧
    authFailedError.className = "Exception" := by
  exact ⟨rfl, rfl, rfl⟩

/-- Claim C4 as amended: each failure mode raises a bare `Exception` whose
fixed message identifies the operation but does not carry the status
code: `authenticate` on any non-200 login response raises
`Exception("Authentication failed")` after exactly one login request (no
internal retry), `get_doorphones` on any status other than 200 and 401
raises `Exception("Failed to fetch doorphones")`, `open_doorphone` on any
such status raises `Exception("Failed to open doorphone")`, and the three
error values are pairwise distinct (same class, different messages). -/
theorem claim_C4 (st : APIState) (e : Env) (s : Nat) (id : Nat) :
    (((e.server e.calls (Req.login st.username st.password)).status = s → s ≠ 200 →
      (UfanetAPI.authenticate st e).1 = Outcome.err authFailedError ∧
      (UfanetAPI.authenticate st e).2.2.log
        = e.log ++ [Req.login st.username st.password]) ∧
    (cookieTruthy st.cookie = true → (e.server e.calls Req.getList).status = s →
      s ≠ 200 → s ≠ 401 →
      (UfanetAPI.get_doorphones 1 st e).1 = Outcome.err fetchFailedError) ∧
    (cookieTruthy st.cookie = true → (e.server e.calls (Req.openDoor id)).status = s →
      s ≠ 200 → s ≠ 401 →
      (UfanetAPI.open_doorphone id 1 st e).1 = Outcome.err openFailedError) ∧
    (authFailedError ≠ fetchFailedError ∧ authFailedError ≠ openFailedError ∧
      fetchFailedError ≠ openFailedError) ∧
    (authFailedError.className = fetchFailedError.className ∧
      fetchFailedError.className = openFailedError.className)) := by
  refine ⟨?_, ?_, ?_, ?_, by exact ⟨rfl, rfl⟩⟩
  · intro hs hs200
    have h1 : (e.server e.calls (Req.login st.username st.password)).status ≠ 200 := by
      rw [hs]; exact hs200
    constructor <;> simp [UfanetAPI.authenticate, Env.request, h1]
  · intro hc hs hs200 hs401
    have h1 : (e.server e.calls Req.getList).status ≠ 200 := by rw [hs]; exact hs200
    have h2 : (e.server e.calls Req.getList).status ≠ 401 := by rw [hs]; exact hs401
    simp [UfanetAPI.get_doorphones, Env.request, hc, h1, h2]
  · intro hc hs hs200 hs401
    have h1 : (e.server e.calls (Req.openDoor id)).status ≠ 200 := by rw [hs]; exact hs200
    have h2 : (e.server e.calls (Req.openDoor id)).status ≠ 401 := by rw [hs]; exact hs401
    simp [UfanetAPI.open_doorphone, Env.request, hc, h1, h2]
  · refine ⟨?_, ?_, ?_⟩ <;> intro h <;>
      simpa [authFailedError, fetchFailedError, openFailedError] using congrArg PyError.message h

/-- Claim C4 witness: against the all-403 server, a fresh client's
`authenticate` raises the authentication error after one login request,
and a cookie-holding client's `get_doorphones` and `open_doorphone` raise
their respective fetch and open errors. -/
theorem claim_C4_witness :
    ((UfanetAPI.authenticate stFresh (mkEnv server403)).1 = Outcome.err authFailedError ∧
      (UfanetAPI.authenticate stFresh (mkEnv server403)).2.2.log
        = (mkEnv server403).log ++ [Req.login stFresh.username stFresh.password]) ∧
    (UfanetAPI.get_doorphones 1 stWithCookie (mkEnv server403)).1
      = Outcome.err fetchFailedError ∧
    (UfanetAPI.open_doorphone 42 1 stWithCookie (mkEnv server403)).1
      = Outcome.err openFailedError := by
  refine ⟨(claim_C4 stFresh (mkEnv server403) 403 42).1 rfl (by decide), ?_, ?_⟩
  · exact (claim_C4 stWithCookie (mkEnv server403) 403 42).2.1 rfl rfl
      (by decide) (by decide)
  · exact (claim_C4 stWithCookie (mkEnv server403) 403 42).2.2.1 rfl rfl
      (by decide) (by decide)

/-- Claim C5 counterexample: against a server whose login answers 200 but
sets no cookie, `authenticate` succeeds, yet the immediately following
`get_doorphones` call issues a second login: the stored cookie jar is
empty, so the guard `if not self.cookie:` (Python truthiness of an
`aiohttp.CookieJar`, which is falsy when it holds no cookies) fires even
though a session context is stored.  The request log of the combined run
records two logins. -/
theorem claim_C5_cex :
    (UfanetAPI.authenticate stFresh (mkEnv emptyCookieServer)).1 = Outcome.ok () ∧
    (UfanetAPI.get_doorphones 1
        (UfanetAPI.authenticate stFresh (mkEnv emptyCookieServer)).2.1
        (UfanetAPI.authenticate stFresh (mkEnv emptyCookieServer)).2.2).2.2.log
      = [Req.login "u1" "p1", Req.login "u1" "p1", Req.getList] := by
  exact ⟨rfl, rfl⟩

/-- Claim C5 as amended: after a successful `authenticate` whose login
response set at least one cookie, an immediately following
`get_doorphones` issues no second login (its only new request is the list
GET); in general the stored session is reused exactly when the stored
cookie jar is truthy, i.e. present and non-empty — a stored-but-empty jar
triggers a fresh login despite a session context being stored. -/
theorem claim_C5 :
    (∀ (st : APIState) (e : Env) (fuel : Nat),
      cookieTruthy st.cookie = true →
      (e.server e.calls Req.getList).status = 200 →
      UfanetAPI.get_doorphones (fuel + 1) st e =
        (Outcome.ok (e.server e.calls Req.getList).json, st,
         { e with calls := e.calls + 1, log := e.log ++ [Req.getList] })) ∧
    (∀ (st : APIState) (e : Env),
      (e.server e.calls (Req.login st.username st.password)).status = 200 →
      (e.server e.calls (Req.login st.username st.password)).setCookies ≠ [] →
      cookieTruthy (UfanetAPI.authenticate st e).2.1.cookie = true) := by
  constructor
  · intro st e fuel hc h200
    simp [UfanetAPI.get_doorphones, Env.request, hc, h200]
  · intro st e h200 hne
    simp [UfanetAPI.authenticate, Env.request, h200, cookieTruthy,
      List.isEmpty_iff, hne]

/-- Claim C5 witness: against a server whose login sets a cookie and whose
list GET answers 200, a post-login client's `get_doorphones` issues only
the list GET (no second login in the log), and a fresh client's
`authenticate` leaves the cookie jar truthy. -/
theorem claim_C5_witness :
    UfanetAPI.get_doorphones 1 stWithCookie (mkEnv sessionCookieServer) =
      (Outcome.ok ((mkEnv sessionCookieServer).server 0 Req.getList).json, stWithCookie,
       { mkEnv sessionCookieServer with calls := 1, log := [Req.getList] }) ∧
    cookieTruthy (UfanetAPI.authenticate stFresh (mkEnv sessionCookieServer)).2.1.cookie
      = true := by
  constructor
  · exact claim_C5.1 stWithCookie (mkEnv sessionCookieServer) 0 rfl rfl
  · exact claim_C5.2 stFresh (mkEnv sessionCookieServer) rfl (by decide)

/-- Helper: whatever the login response status, `authenticate` appends
exactly one login request to the log. -/
theorem authenticate_log (st : APIState) (e : Env) :
    (UfanetAPI.authenticate st e).2.2.log
      = e.log ++ [Req.login st.username st.password] := by
  unfold UfanetAPI.authenticate Env.request
  by_cases h : (e.server e.calls (Req.login st.username st.password)).status = 200 <;>
    simp [h]

/-- Helper: reading the final environment out of an `authenticate`
equation. -/
theorem env_log_of_authenticate (st : APIState) (e : Env) (o : Outcome Unit)
    (st1 : APIState) (e1 : Env) (h : UfanetAPI.authenticate st e = (o, st1, e1)) :
    e1.log = e.log ++ [Req.login st.username st.password] := by
  have h2 := congrArg (fun p => p.2.2.log) h
  simp only at h2
  rw [← h2, authenticate_log]

/-- Helper: `get_doorphones` only ever appends to the request log. -/
theorem get_doorphones_log_extends :
    ∀ (fuel : Nat) (st : APIState) (e : Env),
      ∃ rest, (UfanetAPI.get_doorphones fuel st e).2.2.log = e.log ++ rest := by
  intro fuel
  induction fuel with
  | zero =>
    intro st e
    exact ⟨[], by simp [UfanetAPI.get_doorphones]⟩
  | succ fuel ih =>
    intro st e
    have hentry : ∀ (o : Outcome Unit) (st1 : APIState) (e1 : Env),
        (if cookieTruthy st.cookie then (Outcome.ok (), st, e)
         else UfanetAPI.authenticate st e) = (o, st1, e1) →
        ∃ r0, e1.log = e.log ++ r0 := by
      intro o st1 e1 h
      by_cases hc : cookieTruthy st.cookie
      · rw [if_pos hc] at h
        cases h
        exact ⟨[], by simp⟩
      · rw [if_neg hc] at h
        exact ⟨[Req.login st.username st.password], env_log_of_authenticate st e o st1 e1 h⟩
    simp only [UfanetAPI.get_doorphones]
    split
    case _ pe st1 e1 heq =>
      obtain ⟨r0, hr0⟩ := hentry (Outcome.err pe) st1 e1 heq
      exact ⟨r0, hr0⟩
    case _ st1 e1 heq =>
      obtain ⟨r0, hr0⟩ := hentry Outcome.diverge st1 e1 heq
      exact ⟨r0, hr0⟩
    case _ u st1 e1 heq =>
      obtain ⟨r0, hr0⟩ := hentry (Outcome.ok u) st1 e1 heq
      simp only [Env.request]
      by_cases h200 : (e1.server e1.calls Req.getList).status = 200
      · simp only [h200, if_true]
        exact ⟨r0 ++ [Req.getList], by simp [hr0]⟩
      · simp only [h200, if_false]
        by_cases h401 : (e1.server e1.calls Req.getList).status = 401
        · simp only [h401, if_true]
          rcases hA : UfanetAPI.authenticate st1
              { e1 with calls := e1.calls + 1, log := e1.log ++ [Req.getList] } with
            ⟨oA, st2, e3⟩
          have he3 : e3.log = (e1.log ++ [Req.getList])
              ++ [Req.login st1.username st1.password] := by
            have := env_log_of_authenticate st1
              { e1 with calls := e1.calls + 1, log := e1.log ++ [Req.getList] }
              oA st2 e3 hA
            simpa using this
          cases oA with
          | ok u2 =>
            obtain ⟨r1, hr1⟩ := ih st2 e3
            refine ⟨r0 ++ [Req.getList] ++ [Req.login st1.username st1.password] ++ r1, ?_⟩
            rw [hr1, he3, hr0]
            simp
          | err pe2 =>
            refine ⟨r0 ++ [Req.getList] ++ [Req.login st1.username st1.password], ?_⟩
            rw [he3, hr0]
            simp
          | diverge =>
            refine ⟨r0 ++ [Req.getList] ++ [Req.login st1.username st1.password], ?_⟩
            rw [he3, hr0]
            simp
        · simp only [h401, if_false]
          exact ⟨r0 ++ [Req.getList], by simp [hr0]⟩

/-- Helper: `open_doorphone` only ever appends to the request log. -/
theorem open_doorphone_log_extends (id : Nat) :
    ∀ (fuel : Nat) (st : APIState) (e : Env),
      ∃ rest, (UfanetAPI.open_doorphone id fuel st e).2.2.log = e.log ++ rest := by
  intro fuel
  induction fuel with
  | zero =>
    intro st e
    exact ⟨[], by simp [UfanetAPI.open_doorphone]⟩
  | succ fuel ih =>
    intro st e
    have hentry : ∀ (o : Outcome Unit) (st1 : APIState) (e1 : Env),
        (if cookieTruthy st.cookie then (Outcome.ok (), st, e)
         else UfanetAPI.authenticate st e) = (o, st1, e1) →
        ∃ r0, e1.log = e.log ++ r0 := by
      intro o st1 e1 h
      by_cases hc : cookieTruthy st.cookie
      · rw [if_pos hc] at h
        cases h
        exact ⟨[], by simp⟩
      · rw [if_neg hc] at h
        exact ⟨[Req.login st.username st.password], env_log_of_authenticate st e o st1 e1 h⟩
    simp only [UfanetAPI.open_doorphone]
    split
    case _ pe st1 e1 heq =>
      obtain ⟨r0, hr0⟩ := hentry (Outcome.err pe) st1 e1 heq
      exact ⟨r0, hr0⟩
    case _ st1 e1 heq =>
      obtain ⟨r0, hr0⟩ := hentry Outcome.diverge st1 e1 heq
      exact ⟨r0, hr0⟩
    case _ u st1 e1 heq =>
      obtain ⟨r0, hr0⟩ := hentry (Outcome.ok u) st1 e1 heq
      simp only [Env.request]
      by_cases h200 : (e1.server e1.calls (Req.openDoor id)).status = 200
      · simp only [h200, if_true]
        cases hjson : (e1.server e1.calls (Req.openDoor id)).json <;>
          exact ⟨r0 ++ [Req.openDoor id], by simp [hr0]⟩
      · simp only [h200, if_false]
        by_cases h401 : (e1.server e1.calls (Req.openDoor id)).status = 401
        · simp only [h401, if_true]
          rcases hA : UfanetAPI.authenticate st1
              { e1 with calls := e1.calls + 1, log := e1.log ++ [Req.openDoor id] } with
            ⟨oA, st2, e3⟩
          have he3 : e3.log = (e1.log ++ [Req.openDoor id])
              ++ [Req.login st1.username st1.password] := by
            have := env_log_of_authenticate st1
              { e1 with calls := e1.calls + 1, log := e1.log ++ [Req.openDoor id] }
              oA st2 e3 hA
            simpa using this
          cases oA with
          | ok u2 =>
            obtain ⟨r1, hr1⟩ := ih st2 e3
            refine ⟨r0 ++ [Req.openDoor id] ++ [Req.login st1.username st1.password] ++ r1, ?_⟩
            rw [hr1, he3, hr0]
            simp
          | err pe2 =>
            refine ⟨r0 ++ [Req.openDoor id] ++ [Req.login st1.username st1.password], ?_⟩
            rw [he3, hr0]
            simp
          | diverge =>
            refine ⟨r0 ++ [Req.openDoor id] ++ [Req.login st1.username st1.password], ?_⟩
            rw [he3, hr0]
            simp
        · simp only [h401, if_false]
          exact ⟨r0 ++ [Req.openDoor id], by simp [hr0]⟩

/-- Claim C10: a failing `authenticate` (non-200 login response) raises
but leaves the stored cookie field untouched, so a client whose jar held
a previously stored (possibly already rejected) session cookie still has
a truthy jar; an immediately subsequent `get_doorphones` or
`open_doorphone` call therefore skips the login-if-absent step — the
first request it issues is its authenticated GET, not a login. -/
theorem claim_C10 (st : APIState) (e : Env) (fuel : Nat) (id : Nat)
    (hfail : (e.server e.calls (Req.login st.username st.password)).status ≠ 200)
    (hc : cookieTruthy st.cookie = true) :
    (UfanetAPI.authenticate st e).2.1.cookie = st.cookie ∧
    (UfanetAPI.authenticate st e).1 = Outcome.err authFailedError ∧
    (∃ rest, (UfanetAPI.get_doorphones (fuel + 1) st e).2.2.log
        = e.log ++ Req.getList :: rest) ∧
    (∃ rest, (UfanetAPI.open_doorphone id (fuel + 1) st e).2.2.log
        = e.log ++ Req.openDoor id :: rest) := by
  refine ⟨?_, ?_, ?_, ?_⟩
  · unfold UfanetAPI.authenticate Env.request
    simp [hfail]
  · unfold UfanetAPI.authenticate Env.request
    simp [hfail]
  · simp only [UfanetAPI.get_doorphones, hc, if_true, Env.request]
    by_cases h200 : (e.server e.calls Req.getList).status = 200
    · simp only [h200, if_true]
      exact ⟨[], by simp⟩
    · simp only [h200, if_false]
      by_cases h401 : (e.server e.calls Req.getList).status = 401
      · simp only [h401, if_true]
        rcases hA : UfanetAPI.authenticate st
            { e with calls := e.calls + 1, log := e.log ++ [Req.getList] } with
          ⟨oA, st2, e3⟩
        have he3 : e3.log = (e.log ++ [Req.getList])
            ++ [Req.login st.username st.password] := by
          have := env_log_of_authenticate st
            { e with calls := e.calls + 1, log := e.log ++ [Req.getList] }
            oA st2 e3 hA
          simpa using this
        cases oA with
        | ok u2 =>
          obtain ⟨r1, hr1⟩ := get_doorphones_log_extends fuel st2 e3
          refine ⟨Req.login st.username st.password :: r1, ?_⟩
          rw [hr1, he3]
          simp
        | err pe2 =>
          refine ⟨[Req.login st.username st.password], ?_⟩
          rw [he3]
          simp
        | diverge =>
          refine ⟨[Req.login st.username st.password], ?_⟩
          rw [he3]
          simp
      · simp only [h401, if_false]
        exact ⟨[], by simp⟩
  · simp only [UfanetAPI.open_doorphone, hc, if_true, Env.request]
    by_cases h200 : (e.server e.calls (Req.openDoor id)).status = 200
    · simp only [h200, if_true]
      cases hjson : (e.server e.calls (Req.openDoor id)).json <;>
        exact ⟨[], by simp⟩
    · simp only [h200, if_false]
      by_cases h401 : (e.server e.calls (Req.openDoor id)).status = 401
      · simp only [h401, if_true]
        rcases hA : UfanetAPI.authenticate st
            { e with calls := e.calls + 1, log := e.log ++ [Req.openDoor id] } with
          ⟨oA, st2, e3⟩
        have he3 : e3.log = (e.log ++ [Req.openDoor id])
            ++ [Req.login st.username st.password] := by
          have := env_log_of_authenticate st
            { e with calls := e.calls + 1, log := e.log ++ [Req.openDoor id] }
            oA st2 e3 hA
          simpa using this
        cases oA with
        | ok u2 =>
          obtain ⟨r1, hr1⟩ := open_doorphone_log_extends id fuel st2 e3
          refine ⟨Req.login st.username st.password :: r1, ?_⟩
          rw [hr1, he3]
          simp
        | err pe2 =>
          refine ⟨[Req.login st.username st.password], ?_⟩
          rw [he3]
          simp
        | diverge =>
          refine ⟨[Req.login st.username st.password], ?_⟩
          rw [he3]
          simp
      · simp only [h401, if_false]
        exact ⟨[], by simp⟩

/-- Claim C10 witness: against the all-500 server, a cookie-holding
client's failed login keeps the cookie, raises the authentication error,
and subsequent list or open calls issue their GET first. -/
theorem claim_C10_witness :
    (UfanetAPI.authenticate stWithCookie (mkEnv server500)).2.1.cookie
      = stWithCookie.cookie ∧
    (UfanetAPI.authenticate stWithCookie (mkEnv server500)).1
      = Outcome.err authFailedError ∧
    (∃ rest, (UfanetAPI.get_doorphones 1 stWithCookie (mkEnv server500)).2.2.log
        = (mkEnv server500).log ++ Req.getList :: rest) ∧
    (∃ rest, (UfanetAPI.open_doorphone 42 1 stWithCookie (mkEnv server500)).2.2.log
        = (mkEnv server500).log ++ Req.openDoor 42 :: rest) :=
  claim_C10 stWithCookie (mkEnv server500) 0 42 (by decide) rfl
